import Mathlib

/-!
Shallow embedding of the Vex intake-control sources:
  * src/SampleCode/HighStakes-MonitorIntake-Pros.cpp
      - `intake_monitor_task_function` (lines 94-137): stall monitor with a
        spin-up grace flag and a `reversing` flag;
      - `startMonitoringTask` / `stopMonitoringTask` (lines 63-82): monitor
        task lifecycle guarded by a nullable global task pointer;
      - `detectColor` (lines 367-383): hue-band color classifier;
      - `colorSortTask` (lines 393-441): two-phase timed eject loop.
  * src/unnamed/part_000
      - `intake_monitor_task` (lines 47-72): the basic monitor variant
        without grace period or reversing flag.

Velocities are modelled as integers (the C++ doubles only ever meet integral
thresholds and integral commands in these sources).  A monitor tick is one
iteration of the task's `while (true)` loop; the blocking recovery maneuver
(move_relative, poll-until-stopped, move_velocity) completes inside the tick
that detected the stall, so a tick returns the commands it issued in order.
-/

namespace Vex

/-- Spin-up grace period in ms (HighStakes variant, line 37). -/
def SPIN_UP_GRACE_MS_MS : ℤ := 1000

/-- Desired intake velocity in RPM (HighStakes variant, line 42). -/
def DESIRED_VELOCITY : ℤ := 600

/-- Velocity threshold below which the motor counts as stuck (line 48). -/
def VELOCITY_THRESHOLD : ℤ := 50

/-- Degrees to reverse when stuck (line 53). -/
def REVERSE_DEGREES : ℤ := 90

/-- Speed used for the reversal (line 58). -/
def REVERSE_SPEED : ℤ := -100

/-- Desired intake velocity of the basic variant (part_000, line 19). -/
def desired_velocity : ℤ := 200

/-- Stall threshold of the basic variant (part_000, line 25). -/
def velocity_threshold : ℤ := 50

/-- Reversal angle of the basic variant (part_000, line 30). -/
def reverse_degrees : ℤ := 90

/-- Reversal speed of the basic variant (part_000, line 35). -/
def reverse_speed : ℤ := -100

/-- A command issued to the intake motor (`pros::Motor` calls). -/
inductive Cmd
  | moveRelative (delta : ℤ) (speed : ℤ)
  | moveVelocity (v : ℤ)
  deriving DecidableEq, Repr

/-- Observable motor state: the commanded (target) velocity, as returned by
`get_target_velocity()` and set by `move_velocity(v)`. -/
structure Motor where
  target : ℤ
  deriving DecidableEq, Repr

/-- Classification a monitor tick implicitly produces: the tick either takes
corrective action (`Stalled`) or leaves the motor alone (`Running`). -/
inductive Classification
  | Running
  | Stalled
  deriving DecidableEq, Repr

/-- Local state of `intake_monitor_task_function` (lines 96-97): the
`reversing` flag and the `spin_up_grace` flag. -/
structure MonitorState where
  reversing : Bool
  spin_up_grace : Bool
  deriving DecidableEq, Repr

/-- Initial monitor state (lines 96-97): not reversing, grace active. -/
def initMonitorState : MonitorState := ⟨false, true⟩

/-- Result of one iteration of the monitor loop. -/
structure TickResult where
  state : MonitorState
  motor : Motor
  cls : Classification
  cmds : List Cmd
  deriving DecidableEq, Repr

/-- One iteration of `intake_monitor_task_function` (lines 99-136).
During the grace tick the stuck check is skipped (`continue`, line 109) and
nothing is commanded.  In the stall branch (lines 113-132) the code sets
`reversing`, issues `move_relative(-REVERSE_DEGREES, REVERSE_SPEED)`, blocks
until the reversal finishes (the inner poll loop, modelled separately by
`waitReverseDone`), re-issues `move_velocity(DESIRED_VELOCITY)` and clears
`reversing` — all before the next iteration, so the tick's final state has
`reversing = false` again. -/
def intake_monitor_task_function_tick (s : MonitorState) (m : Motor)
    (current_velocity : ℤ) : TickResult :=
  if s.spin_up_grace then
    ⟨⟨s.reversing, false⟩, m, .Running, []⟩
  else if s.reversing = false ∧ |current_velocity| < VELOCITY_THRESHOLD ∧
      m.target ≠ 0 then
    ⟨⟨false, false⟩, ⟨DESIRED_VELOCITY⟩, .Stalled,
      [.moveRelative (-REVERSE_DEGREES) REVERSE_SPEED,
       .moveVelocity DESIRED_VELOCITY]⟩
  else
    ⟨s, m, .Running, []⟩

/-- One iteration of the basic variant `intake_monitor_task`
(part_000, lines 48-71): no grace period, no reversing flag; on a stall it
reverses and then resumes at the constant `desired_velocity`. -/
def intake_monitor_task_tick (m : Motor) (current_velocity : ℤ) :
    Motor × Classification × List Cmd :=
  if |current_velocity| < velocity_threshold ∧ m.target ≠ 0 then
    (⟨desired_velocity⟩, .Stalled,
      [.moveRelative (-reverse_degrees) reverse_speed,
       .moveVelocity desired_velocity])
  else
    (m, .Running, [])

/-- The inner poll loop of the recovery maneuver (lines 124-127):
`while (abs(get_actual_velocity()) > 1) delay(10);`.  Given the sequence of
actual-velocity samples read at each poll, returns the number of polls made
before the loop exits, or `none` if no sample in the list lets it exit. -/
def waitReverseDone : List ℤ → Option ℕ
  | [] => none
  | v :: vs => if |v| > 1 then (waitReverseDone vs).map (· + 1) else some 0

/-- Run the HighStakes monitor over a trace of actual-velocity samples,
one sample per tick, returning the per-tick classifications. -/
def monitorRun (s : MonitorState) (m : Motor) : List ℤ → List Classification
  | [] => []
  | v :: vs =>
    let r := intake_monitor_task_function_tick s m v
    r.cls :: monitorRun r.state r.motor vs

/-- The re-trigger-suppression property claimed of the detector: between any
two `Stalled` reports there is an intervening `Running` report. -/
def noRestallWithoutRunning (cs : List Classification) : Prop :=
  ∀ i j : ℕ, i < j → cs[i]? = some .Stalled → cs[j]? = some .Stalled →
    ∃ k : ℕ, i < k ∧ k < j ∧ cs[k]? = some .Running

/-- Operations on the monitor-task lifecycle. -/
inductive LifecycleOp
  | start
  | stop
  deriving DecidableEq, Repr

/-- Lifecycle state: `handleSet` mirrors `intake_monitor_task != nullptr`
(the global pointer, line 14); `liveLoops` counts loop instances that have
been spawned and not yet terminated. -/
structure LifecycleState where
  handleSet : Bool
  liveLoops : ℕ
  deriving DecidableEq, Repr

/-- `startMonitoringTask` (lines 63-69): spawns a new monitor loop only when
the global task pointer is null, otherwise a no-op. -/
def startMonitoringTask (s : LifecycleState) : LifecycleState :=
  if s.handleSet then s else ⟨true, s.liveLoops + 1⟩

/-- `stopMonitoringTask` (lines 74-82): when the pointer is non-null it calls
`task->remove()` — which under PROS cooperative scheduling unschedules the
task before returning, so the loop instance is terminated by the time the
pointer is nulled — then deletes and nulls the pointer; otherwise a no-op. -/
def stopMonitoringTask (s : LifecycleState) : LifecycleState :=
  if s.handleSet then ⟨false, s.liveLoops - 1⟩ else s

/-- One lifecycle operation. -/
def lifecycleStep (s : LifecycleState) : LifecycleOp → LifecycleState
  | .start => startMonitoringTask s
  | .stop => stopMonitoringTask s

/-- Run a sequence of lifecycle operations from the initial state
(null pointer, no loop running — line 14). -/
def runLifecycle (ops : List LifecycleOp) : LifecycleState :=
  ops.foldl lifecycleStep ⟨false, 0⟩

/-- The three command authorities of the spec's arbitration model. -/
inductive Authority
  | Manual
  | StallRecovery
  | ColorSort
  deriving DecidableEq, Repr

/-- Kinds of command intents. -/
inductive IntentKind
  | SetVelocity (v : ℤ)
  | RelativeMove (delta : ℤ) (speed : ℤ)
  | Hold
  deriving DecidableEq, Repr

/-- An authority-tagged command intent. -/
structure CommandIntent where
  authority : Authority
  kind : IntentKind
  deriving DecidableEq, Repr

/-- Arbitration rejection. -/
inductive ArbitrationError
  | PreemptedByHigherAuthority
  deriving DecidableEq, Repr

/-- Precedence order (spec 4.6): StallRecovery > ColorSort > Manual. -/
def authorityPriority : Authority → ℕ
  | .Manual => 0
  | .ColorSort => 1
  | .StallRecovery => 2

/-- Arbiter state: which authority (if any) currently holds the actuator,
and the actuator itself. -/
structure ArbiterState where
  holder : Option Authority
  motor : Motor
  deriving DecidableEq, Repr

/-- Effect of an accepted intent on the actuator: `SetVelocity` overwrites
the commanded velocity; `RelativeMove` is a position command and leaves the
velocity target; `Hold` changes nothing. -/
def applyIntent (st : ArbiterState) (i : CommandIntent) : ArbiterState :=
  match i.kind with
  | .SetVelocity v => ⟨st.holder, ⟨v⟩⟩
  | .RelativeMove _ _ => st
  | .Hold => st

/-- Modelled from the spec: the `ActuatorArbiter.submit` API (spec 4.6) has
no counterpart anywhere in src/ — the sources let each loop write the motor
directly, and the spec itself re-architects that into an explicit arbiter.
Per the spec's words: a lower-priority intent is rejected with
`PreemptedByHigherAuthority` (not queued, state untouched) while a
higher-priority authority holds the actuator; otherwise it takes effect. -/
def submit (st : ArbiterState) (i : CommandIntent) :
    Except ArbitrationError Unit × ArbiterState :=
  match st.holder with
  | some a =>
    if authorityPriority i.authority < authorityPriority a then
      (.error .PreemptedByHigherAuthority, st)
    else
      (.ok (), applyIntent st i)
  | none => (.ok (), applyIntent st i)

/-- Alliance colors (lines 346-351). -/
inductive AllianceColor
  | RED
  | BLUE
  | UNKNOWN
  deriving DecidableEq, Repr

/-- `detectColor` (lines 367-383): classify a hue reading into bands.
The hue is the `int` value of `colorSortSensor.get_hue()`, in [0,360). -/
def detectColor (hue : ℤ) : AllianceColor :=
  if 330 ≤ hue ∨ hue ≤ 30 then .RED
  else if 210 ≤ hue ∧ hue ≤ 270 then .BLUE
  else .UNKNOWN

/-- The red band on the hue circle [0,360): wrap-around range
[330,360) ∪ [0,30] (line 371). -/
def redBand (hue : ℤ) : Prop := 330 ≤ hue ∨ hue ≤ 30

/-- The blue band [210,270] (line 375). -/
def blueBand (hue : ℤ) : Prop := 210 ≤ hue ∧ hue ≤ 270

instance (hue : ℤ) : Decidable (redBand hue) := by
  unfold redBand; infer_instance

instance (hue : ℤ) : Decidable (blueBand hue) := by
  unfold blueBand; infer_instance

/-- Travel delay before stopping to eject, ms (line 396). -/
def TRAVEL_DELAY : ℕ := 100

/-- Stop delay to ensure ejection, ms (line 397). -/
def STOP_DELAY : ℕ := 200

/-- Default intake speed re-issued after an eject (line 398). -/
def INTAKE_SPEED : ℤ := 100

/-- A timed event of one color-sort iteration: either a delay or a
`move_velocity` command to the intake motor. -/
inductive SortEvent
  | delayMs (ms : ℕ)
  | setVelocity (v : ℤ)
  deriving DecidableEq, Repr

/-- One iteration of `colorSortTask`'s loop (lines 400-440), as the timed
sequence of events it performs given the alliance color and the detected
color.  Scenario 1 (match) and scenario 3 (no object) issue no motor
command; scenario 2 (mismatch, not UNKNOWN) waits the travel delay, stops
the motor, waits the stop delay, and re-issues `INTAKE_SPEED`. -/
def colorSortIter (ALLIANCE_COLOR detectedColor : AllianceColor) :
    List SortEvent :=
  if detectedColor = ALLIANCE_COLOR then []
  else if detectedColor ≠ .UNKNOWN then
    [.delayMs TRAVEL_DELAY, .setVelocity 0,
     .delayMs STOP_DELAY, .setVelocity INTAKE_SPEED]
  else []

/-- Commanded velocity observed `time` ms into an event sequence, starting
from commanded velocity `t`.  A `setVelocity` takes effect instantly; a
boundary instant `time = d` observes the state after the delay elapses. -/
def targetAt (t : ℤ) : List SortEvent → ℕ → ℤ
  | [], _ => t
  | .delayMs d :: evs, time =>
    if time < d then t else targetAt t evs (time - d)
  | .setVelocity v :: evs, time => targetAt v evs time

/-- Commanded velocity after the whole event sequence has run. -/
def targetAfter (t : ℤ) : List SortEvent → ℤ
  | [] => t
  | .delayMs _ :: evs => targetAfter t evs
  | .setVelocity v :: evs => targetAfter v evs

/-- A tick that reports `Stalled` is exactly the stall branch (lines
113-132): it issues the reversal followed by the resume command, leaves the
motor commanded at `DESIRED_VELOCITY`, and ends with `reversing = false`. -/
theorem stalled_tick_eq (s : MonitorState) (m : Motor) (v : ℤ)
    (h : (intake_monitor_task_function_tick s m v).cls = .Stalled) :
    intake_monitor_task_function_tick s m v =
      ⟨⟨false, false⟩, ⟨DESIRED_VELOCITY⟩, .Stalled,
       [.moveRelative (-REVERSE_DEGREES) REVERSE_SPEED,
        .moveVelocity DESIRED_VELOCITY]⟩ := by
  unfold intake_monitor_task_function_tick at h ⊢
  split_ifs at h ⊢
  simp_all

/-- The reverse-wait poll loop exits at the first sample whose absolute
value is at most 1, having polled past only samples above 1. -/
theorem waitReverseDone_spec (samples : List ℤ) (n : ℕ)
    (hw : waitReverseDone samples = some n) :
    (∃ w : ℤ, samples[n]? = some w ∧ |w| ≤ 1) ∧
    ∀ k : ℕ, k < n → ∀ w : ℤ, samples[k]? = some w → 1 < |w| := by
  induction samples generalizing n with
  | nil => simp [waitReverseDone] at hw
  | cons v vs ih =>
    unfold waitReverseDone at hw
    split_ifs at hw with hv
    · cases hmap : waitReverseDone vs with
      | none => rw [hmap] at hw; simp at hw
      | some j =>
        rw [hmap] at hw
        simp at hw
        obtain rfl : j + 1 = n := by omega
        obtain ⟨⟨w, hw1, hw2⟩, hall⟩ := ih j hmap
        refine ⟨⟨w, by simpa using hw1, hw2⟩, ?_⟩
        intro k hk w hwk
        cases k with
        | zero =>
          simp only [List.getElem?_cons_zero, Option.some.injEq] at hwk
          subst hwk
          exact hv
        | succ k =>
          simp only [List.getElem?_cons_succ] at hwk
          exact hall k (by omega) w hwk
    · obtain rfl : 0 = n := by simpa using hw
      exact ⟨⟨v, by simp, by omega⟩, by omega⟩

/-- Claim C1: for every commanded velocity v ≠ 0 and every actual-velocity
sample, while the spin-up grace flag is set the monitor tick classifies the
sample as Running and issues no command — no stall check, no reversal — and
leaves the motor unchanged; in particular the first tick of any run from the
initial state classifies as Running regardless of the trace. -/
theorem C1_grace_always_running (s : MonitorState) (m : Motor) (v : ℤ)
    (hg : s.spin_up_grace = true) (_hv : m.target ≠ 0) :
    (intake_monitor_task_function_tick s m v).cls = .Running ∧
    (intake_monitor_task_function_tick s m v).cmds = [] ∧
    (intake_monitor_task_function_tick s m v).motor = m ∧
    ∀ vs : List ℤ, (monitorRun s m (v :: vs))[0]? = some .Running := by
  simp [intake_monitor_task_function_tick, monitorRun, hg]

/-- Witness for C1: initial monitor state, target 600, actual velocity 0
(far below threshold), still classified Running with no commands. -/
theorem C1_grace_always_running_witness :
    (intake_monitor_task_function_tick initMonitorState ⟨600⟩ 0).cls =
      .Running ∧
    (intake_monitor_task_function_tick initMonitorState ⟨600⟩ 0).cmds = [] ∧
    (intake_monitor_task_function_tick initMonitorState ⟨600⟩ 0).motor =
      ⟨600⟩ ∧
    ∀ vs : List ℤ,
      (monitorRun initMonitorState ⟨600⟩ (0 :: vs))[0]? = some .Running :=
  C1_grace_always_running initMonitorState ⟨600⟩ 0 rfl (by decide)

/-- Claim C4: whenever the commanded (target) velocity is 0, neither monitor
variant classifies the tick as Stalled or issues any command, whatever the
actual velocity. -/
theorem C4_zero_command_never_stalled (s : MonitorState) (m : Motor) (v : ℤ)
    (h : m.target = 0) :
    (intake_monitor_task_function_tick s m v).cls ≠ .Stalled ∧
    (intake_monitor_task_function_tick s m v).cmds = [] ∧
    (intake_monitor_task_tick m v).2.1 ≠ .Stalled ∧
    (intake_monitor_task_tick m v).2.2 = [] := by
  unfold intake_monitor_task_function_tick intake_monitor_task_tick
  split_ifs <;> simp_all

/-- Witness for C4: target 0, actual velocity 0, monitor off grace — no
stall reported and no commands in either variant. -/
theorem C4_zero_command_never_stalled_witness :
    (intake_monitor_task_function_tick ⟨false, false⟩ ⟨0⟩ 0).cls ≠ .Stalled ∧
    (intake_monitor_task_function_tick ⟨false, false⟩ ⟨0⟩ 0).cmds = [] ∧
    (intake_monitor_task_tick ⟨0⟩ 0).2.1 ≠ .Stalled ∧
    (intake_monitor_task_tick ⟨0⟩ 0).2.2 = [] :=
  C4_zero_command_never_stalled ⟨false, false⟩ ⟨0⟩ 0 rfl

/-- Claim C10: the stall comparison is strict.  After the grace period, a
sample with |actual velocity| exactly equal to the threshold (50) is
classified Running with no reversal, in both monitor variants; and the
HighStakes tick reports Stalled exactly when not reversing, |actual| is
strictly below the threshold, and the target is nonzero. -/
theorem C10_threshold_strict (s : MonitorState) (m : Motor) (v : ℤ)
    (hg : s.spin_up_grace = false) :
    (|v| = VELOCITY_THRESHOLD →
      (intake_monitor_task_function_tick s m v).cls = .Running ∧
      (intake_monitor_task_function_tick s m v).cmds = [] ∧
      (intake_monitor_task_tick m v).2.1 = .Running ∧
      (intake_monitor_task_tick m v).2.2 = []) ∧
    ((intake_monitor_task_function_tick s m v).cls = .Stalled ↔
      s.reversing = false ∧ |v| < VELOCITY_THRESHOLD ∧ m.target ≠ 0) := by
  constructor
  · intro hv
    have h1 : ¬ (|v| < VELOCITY_THRESHOLD) := by rw [hv]; exact lt_irrefl _
    have h2 : ¬ (|v| < velocity_threshold) := by
      rw [hv]; unfold VELOCITY_THRESHOLD velocity_threshold; omega
    simp [intake_monitor_task_function_tick, intake_monitor_task_tick,
      hg, h1, h2]
  · simp only [intake_monitor_task_function_tick, hg, Bool.false_eq_true,
      if_false]
    split_ifs with hc <;> simp_all

/-- Witness for C10: off grace, target 600, |actual| = 50 exactly — Running,
no commands, and the Stalled characterization holds at that input. -/
theorem C10_threshold_strict_witness :
    ((|(50 : ℤ)| = VELOCITY_THRESHOLD →
      (intake_monitor_task_function_tick ⟨false, false⟩ ⟨600⟩ 50).cls =
        .Running ∧
      (intake_monitor_task_function_tick ⟨false, false⟩ ⟨600⟩ 50).cmds = [] ∧
      (intake_monitor_task_tick ⟨600⟩ 50).2.1 = .Running ∧
      (intake_monitor_task_tick ⟨600⟩ 50).2.2 = []) ∧
    ((intake_monitor_task_function_tick ⟨false, false⟩ ⟨600⟩ 50).cls =
        .Stalled ↔
      (false : Bool) = false ∧ |(50 : ℤ)| < VELOCITY_THRESHOLD ∧
        (600 : ℤ) ≠ 0)) :=
  C10_threshold_strict ⟨false, false⟩ ⟨600⟩ 50 rfl

/-- Claim C3 fails on the code: with target 600 and actual velocity stuck at
0, the run [grace tick, tick, tick] classifies [Running, Stalled, Stalled] —
the second Stalled follows the first with no intervening Running reading,
because the `reversing` flag is set and cleared within the same iteration
(lines 120 and 131) and so never suppresses the next tick's check. -/
theorem C3_counterexample :
    monitorRun initMonitorState ⟨600⟩ [0, 0, 0] =
      [.Running, .Stalled, .Stalled] ∧
    ¬ noRestallWithoutRunning (monitorRun initMonitorState ⟨600⟩ [0, 0, 0]) := by
  have he : monitorRun initMonitorState ⟨600⟩ [0, 0, 0] =
      [.Running, .Stalled, .Stalled] := by decide
  refine ⟨he, ?_⟩
  rw [he]
  intro hprop
  obtain ⟨k, hk1, hk2, _⟩ := hprop 1 2 (by omega) (by rfl) (by rfl)
  omega

/-- Claim C3 amended: Stalled is reported at most once per recovery — a tick
that reports Stalled completes the entire recovery maneuver (reversal, wait,
resume at `DESIRED_VELOCITY`) within that same tick, before any further
classification; so no Stalled is ever reported while a recovery maneuver is
in progress.  After recovery completes, however, Stalled may recur on the
very next tick without an intervening Running reading. -/
theorem C3_amended_no_restall_mid_recovery
    (s : MonitorState) (m : Motor) (v : ℤ)
    (h : (intake_monitor_task_function_tick s m v).cls = .Stalled) :
    (intake_monitor_task_function_tick s m v).cmds =
      [.moveRelative (-REVERSE_DEGREES) REVERSE_SPEED,
       .moveVelocity DESIRED_VELOCITY] ∧
    (intake_monitor_task_function_tick s m v).motor.target =
      DESIRED_VELOCITY ∧
    (intake_monitor_task_function_tick s m v).state.reversing = false := by
  rw [stalled_tick_eq s m v h]
  exact ⟨rfl, rfl, rfl⟩

/-- Witness for the amended C3 at a concrete stalled tick: off grace,
target 600, actual velocity 0. -/
theorem C3_amended_no_restall_mid_recovery_witness :
    (intake_monitor_task_function_tick ⟨false, false⟩ ⟨600⟩ 0).cmds =
      [.moveRelative (-REVERSE_DEGREES) REVERSE_SPEED,
       .moveVelocity DESIRED_VELOCITY] ∧
    (intake_monitor_task_function_tick ⟨false, false⟩ ⟨600⟩ 0).motor.target =
      DESIRED_VELOCITY ∧
    (intake_monitor_task_function_tick ⟨false, false⟩ ⟨600⟩ 0).state.reversing =
      false :=
  C3_amended_no_restall_mid_recovery ⟨false, false⟩ ⟨600⟩ 0 (by decide)

/-- Claim C5 fails on the code: the recovery does not re-issue the velocity
commanded before the stall — it re-issues the constant `DESIRED_VELOCITY`
(line 130).  With the motor commanded at -600 (reverse intake, reachable
while the monitor is still live) and actual velocity 0, the tick reports
Stalled and leaves the commanded velocity at 600, not the original -600. -/
theorem C5_counterexample :
    (intake_monitor_task_function_tick ⟨false, false⟩ ⟨-600⟩ 0).cls =
      .Stalled ∧
    (intake_monitor_task_function_tick ⟨false, false⟩ ⟨-600⟩ 0).motor.target =
      DESIRED_VELOCITY ∧
    DESIRED_VELOCITY ≠ (-600 : ℤ) := by decide

/-- Claim C5 amended: for every stall episode the recovery issues the
bounded relative reversal at the fixed negative speed, polls the actual
velocity until the first near-zero sample (all earlier polls above 1), and
then re-issues the fixed nominal intake velocity `DESIRED_VELOCITY` — so the
commanded velocity after recovery equals the nominal intake speed (which
coincides with the pre-stall command only when that command was the nominal
speed). -/
theorem C5_amended_recovery_resumes_nominal
    (s : MonitorState) (m : Motor) (v : ℤ)
    (h : (intake_monitor_task_function_tick s m v).cls = .Stalled)
    (samples : List ℤ) (n : ℕ) (hw : waitReverseDone samples = some n) :
    (intake_monitor_task_function_tick s m v).cmds =
      [.moveRelative (-REVERSE_DEGREES) REVERSE_SPEED,
       .moveVelocity DESIRED_VELOCITY] ∧
    (intake_monitor_task_function_tick s m v).motor.target =
      DESIRED_VELOCITY ∧
    (∃ w : ℤ, samples[n]? = some w ∧ |w| ≤ 1) ∧
    (∀ k : ℕ, k < n → ∀ w : ℤ, samples[k]? = some w → 1 < |w|) := by
  obtain ⟨hex, hall⟩ := waitReverseDone_spec samples n hw
  rw [stalled_tick_eq s m v h]
  exact ⟨rfl, rfl, hex, hall⟩

/-- Witness for the amended C5: stalled tick at target 600, actual 0; the
wait loop polls past sample 30 and exits at sample 0. -/
theorem C5_amended_recovery_resumes_nominal_witness :
    (intake_monitor_task_function_tick ⟨false, false⟩ ⟨600⟩ 0).cmds =
      [.moveRelative (-REVERSE_DEGREES) REVERSE_SPEED,
       .moveVelocity DESIRED_VELOCITY] ∧
    (intake_monitor_task_function_tick ⟨false, false⟩ ⟨600⟩ 0).motor.target =
      DESIRED_VELOCITY ∧
    (∃ w : ℤ, ([30, 0] : List ℤ)[1]? = some w ∧ |w| ≤ 1) ∧
    (∀ k : ℕ, k < 1 → ∀ w : ℤ, ([30, 0] : List ℤ)[k]? = some w → 1 < |w|) :=
  C5_amended_recovery_resumes_nominal ⟨false, false⟩ ⟨600⟩ 0 (by decide)
    [30, 0] 1 (by decide)

/-- One lifecycle operation preserves the coupling between the global task
pointer and the number of live loop instances. -/
theorem lifecycleStep_invariant (s : LifecycleState) (op : LifecycleOp)
    (hs : s.liveLoops = if s.handleSet then 1 else 0) :
    (lifecycleStep s op).liveLoops =
      if (lifecycleStep s op).handleSet then 1 else 0 := by
  cases op <;>
    unfold lifecycleStep startMonitoringTask stopMonitoringTask <;>
    split_ifs with h <;> simp_all

/-- Folding any operation sequence from a state satisfying the coupling
keeps the coupling. -/
theorem lifecycle_fold_invariant (ops : List LifecycleOp) (s : LifecycleState)
    (hs : s.liveLoops = if s.handleSet then 1 else 0) :
    (ops.foldl lifecycleStep s).liveLoops =
      if (ops.foldl lifecycleStep s).handleSet then 1 else 0 := by
  induction ops generalizing s with
  | nil => simpa using hs
  | cons op ops ih =>
    simp only [List.foldl_cons]
    exact ih (lifecycleStep s op) (lifecycleStep_invariant s op hs)

/-- Claim C6: at most one monitor task instance is live at any time —
`startMonitoringTask` is a no-op whenever the task pointer is set, and after
any sequence of start/stop operations from the initial state (including a
start immediately following a stop) the number of live loop instances never
exceeds one.  The model relies on `task->remove()` terminating the loop
before `stopMonitoringTask` returns, which is the PROS semantics of task
deletion. -/
theorem C6_single_monitor_instance :
    (∀ s : LifecycleState, s.handleSet = true → startMonitoringTask s = s) ∧
    (∀ ops : List LifecycleOp, (runLifecycle ops).liveLoops ≤ 1) := by
  constructor
  · intro s h
    simp [startMonitoringTask, h]
  · intro ops
    have hinv := lifecycle_fold_invariant ops ⟨false, 0⟩ (by simp)
    unfold runLifecycle
    rw [hinv]
    split_ifs <;> omega

/-- Witness for C6: a running state is untouched by start, and the sequence
stop-start-start-stop-start ends with at most one live loop. -/
theorem C6_single_monitor_instance_witness :
    startMonitoringTask ⟨true, 1⟩ = ⟨true, 1⟩ ∧
    (runLifecycle [.stop, .start, .start, .stop, .start]).liveLoops ≤ 1 :=
  ⟨C6_single_monitor_instance.1 ⟨true, 1⟩ rfl,
   C6_single_monitor_instance.2 [.stop, .start, .start, .stop, .start]⟩

/-- Claim C2: while StallRecovery holds the actuator, a Manual SetVelocity
intent is rejected with `PreemptedByHigherAuthority` and the whole arbiter
state — in particular the commanded (target) velocity — is unchanged by the
rejected intent. -/
theorem C2_manual_rejected_during_recovery (st : ArbiterState) (v : ℤ)
    (h : st.holder = some .StallRecovery) :
    (submit st ⟨.Manual, .SetVelocity v⟩).1 =
      .error .PreemptedByHigherAuthority ∧
    (submit st ⟨.Manual, .SetVelocity v⟩).2 = st ∧
    (submit st ⟨.Manual, .SetVelocity v⟩).2.motor.target =
      st.motor.target := by
  simp [submit, h, authorityPriority]

/-- Witness for C2: recovery holds the actuator at commanded velocity 600;
a manual intent to set velocity 0 is rejected and 600 remains commanded. -/
theorem C2_manual_rejected_during_recovery_witness :
    (submit ⟨some .StallRecovery, ⟨600⟩⟩ ⟨.Manual, .SetVelocity 0⟩).1 =
      .error .PreemptedByHigherAuthority ∧
    (submit ⟨some .StallRecovery, ⟨600⟩⟩ ⟨.Manual, .SetVelocity 0⟩).2 =
      ⟨some .StallRecovery, ⟨600⟩⟩ ∧
    (submit ⟨some .StallRecovery, ⟨600⟩⟩
        ⟨.Manual, .SetVelocity 0⟩).2.motor.target =
      (⟨some .StallRecovery, ⟨600⟩⟩ : ArbiterState).motor.target :=
  C2_manual_rejected_during_recovery ⟨some .StallRecovery, ⟨600⟩⟩ 0 rfl

set_option maxRecDepth 4000 in
/-- Claim C7: the color classifier is a pure function of hue with fixed
disjoint bands — hues 0, 15, 345 are red; 240 is blue; 90 is Unknown; the
boundary hues 330, 30, 210, 270 fall inside their bands; the two bands are
disjoint on [0,360); and every hue in [0,360) outside both bands maps to
Unknown (and conversely). -/
theorem C7_color_classifier_bands :
    detectColor 0 = .RED ∧ detectColor 15 = .RED ∧ detectColor 345 = .RED ∧
    detectColor 240 = .BLUE ∧ detectColor 90 = .UNKNOWN ∧
    detectColor 330 = .RED ∧ detectColor 30 = .RED ∧
    detectColor 210 = .BLUE ∧ detectColor 270 = .BLUE ∧
    (∀ h : Fin 360, ¬ (redBand h.val ∧ blueBand h.val)) ∧
    (∀ h : Fin 360, detectColor h.val = .UNKNOWN ↔
      ¬ redBand h.val ∧ ¬ blueBand h.val) := by
  decide

/-- Claim C8: for an object classified as opposing, one color-sort iteration
performs exactly [travel delay, stop, stop delay, resume at INTAKE_SPEED]:
the commanded velocity is unchanged throughout the travel delay, is 0 at the
travel-delay mark, and equals the nominal intake speed at the end of the
eject window and after the iteration. -/
theorem C8_eject_window (ac d : AllianceColor) (t0 : ℤ)
    (hne : d ≠ ac) (hu : d ≠ .UNKNOWN) :
    colorSortIter ac d =
      [.delayMs TRAVEL_DELAY, .setVelocity 0,
       .delayMs STOP_DELAY, .setVelocity INTAKE_SPEED] ∧
    (∀ t : ℕ, t < TRAVEL_DELAY → targetAt t0 (colorSortIter ac d) t = t0) ∧
    targetAt t0 (colorSortIter ac d) TRAVEL_DELAY = 0 ∧
    targetAt t0 (colorSortIter ac d) (TRAVEL_DELAY + STOP_DELAY) =
      INTAKE_SPEED ∧
    targetAfter t0 (colorSortIter ac d) = INTAKE_SPEED := by
  have he : colorSortIter ac d =
      [.delayMs TRAVEL_DELAY, .setVelocity 0,
       .delayMs STOP_DELAY, .setVelocity INTAKE_SPEED] := by
    simp [colorSortIter, hne, hu]
  refine ⟨he, ?_, ?_, ?_, ?_⟩ <;> rw [he]
  · intro t ht
    simp [targetAt, ht]
  · simp [targetAt, targetAfter, TRAVEL_DELAY, STOP_DELAY]
  · simp [targetAt, targetAfter, TRAVEL_DELAY, STOP_DELAY]
  · simp [targetAfter]

/-- Witness for C8: alliance RED, detected BLUE, initial commanded velocity
600 — the full eject sequence runs and ends commanding INTAKE_SPEED. -/
theorem C8_eject_window_witness :
    colorSortIter .RED .BLUE =
      [.delayMs TRAVEL_DELAY, .setVelocity 0,
       .delayMs STOP_DELAY, .setVelocity INTAKE_SPEED] ∧
    (∀ t : ℕ, t < TRAVEL_DELAY →
      targetAt 600 (colorSortIter .RED .BLUE) t = 600) ∧
    targetAt 600 (colorSortIter .RED .BLUE) TRAVEL_DELAY = 0 ∧
    targetAt 600 (colorSortIter .RED .BLUE) (TRAVEL_DELAY + STOP_DELAY) =
      INTAKE_SPEED ∧
    targetAfter 600 (colorSortIter .RED .BLUE) = INTAKE_SPEED :=
  C8_eject_window .RED .BLUE 600 (by decide) (by decide)

/-- Claim C9: a tick whose classification is UNKNOWN (no object or
ambiguous sensor data) issues no motor command at all in the color-sort
loop — no eject, no maneuver — so the commanded velocity is unchanged at
every instant of that iteration and after it.  (The stall monitor consumes
no hue classification, so an UNKNOWN reading cannot trigger a stall
maneuver either.) -/
theorem C9_unknown_no_command (ac : AllianceColor) (t0 : ℤ) (time : ℕ) :
    colorSortIter ac .UNKNOWN = [] ∧
    targetAt t0 (colorSortIter ac .UNKNOWN) time = t0 ∧
    targetAfter t0 (colorSortIter ac .UNKNOWN) = t0 := by
  cases ac <;> simp [colorSortIter, targetAt, targetAfter]

end Vex
